import Mathlib

/-!
A shallow embedding of the TensorFlow Federated `ReferenceResolvingExecutor`
(RRE) and its interaction with an opaque child executor.

The repository ships the unit tests
(`tensorflow_federated/cc/core/impl/executors/reference_resolving_executor_test.cc`);
the executor implementation itself is not part of the source tree given here,
so the executor below is modelled from the specification, with every behaviour
that the tests pin down (expected child-executor calls via a strict mock,
identifier numbering, exact error texts) taken from the tests.

The child executor is modelled as a deterministic oracle: a function from the
trace of requests made so far and the current request to a result.  All
resolving-executor operations thread an explicit state carrying the child-call
trace, the next fresh identifier and the identifier table, and return
`Except Err` results, mirroring `absl::StatusOr`.
-/

namespace RefResolve

/-- Error kinds mirroring the `absl::StatusCode` values the executor uses. -/
inductive ErrKind where
  | notFound
  | invalidArgument
  | internal
  | outOfFuel
  deriving DecidableEq, Repr

/-- An error: a status kind together with a message, mirroring `absl::Status`. -/
structure Err where
  kind : ErrKind
  msg : String
  deriving DecidableEq, Repr

/-- Computation IR shapes consumed by the executor, mirroring
`federated_language::Computation`.  Payload-bearing leaves that the executor
treats opaquely (`tensorflow`, `xla`) carry no payload here. -/
inductive Comp where
  | data (uri : String)
  | intrinsic (uri : String)
  | placement (uri : String)
  | tensorflow
  | xla
  | lam (param : Option String) (body : Comp)
  | block (locals : List (String × Comp)) (result : Comp)
  | reference (name : String)
  | call (fn : Comp) (arg : Option Comp)
  | selection (source : Comp) (index : Nat)
  | structC (elems : List Comp)

/-- Serialized values on the executor wire format, mirroring `v0::Value`:
a tagged union of tensor/array, sequence, federated collection, struct and
computation.  Array and sequence payloads are opaque to the executor and are
modelled as bare naturals. -/
inductive V0Value where
  | array (payload : Nat)
  | sequence (payload : Nat)
  | federated (members : List V0Value)
  | structV (elems : List V0Value)
  | computation (c : Comp)

/-- A request made to the child executor; the trace of these is the
observable interaction with the child (what the mock executor records). -/
inductive ChildReq where
  | createValue (v : V0Value)
  | createCall (fn : Nat) (arg : Option Nat)
  | createStruct (elems : List Nat)
  | createSelection (src : Nat) (idx : Nat)
  | materialize (id : Nat)
  | dispose (id : Nat)

/-- The child executor, modelled as a deterministic oracle over the request
trace: `create` answers the four id-returning operations, `mater` answers
`Materialize`. -/
structure Child where
  create : List ChildReq → ChildReq → Except Err Nat
  mater : List ChildReq → Nat → Except Err V0Value

/-- Internal value representation owned by the resolving executor
(`ExecutorValue` in the implementation): an embedded child-executor handle, a
lazy local structure, or a lambda closing over its creation-time scope.
A scope is an innermost-first list of single-binding frames. -/
inductive ExecutorValue where
  | embedded (childId : Nat)
  | structV (elems : List ExecutorValue)
  | lambdaV (param : Option String) (body : Comp) (scope : List (String × ExecutorValue))

/-- A scope: an immutable chain of frames, innermost first; the empty list is
the root scope. -/
def Scope := List (String × ExecutorValue)

/-- Scope lookup walks innermost to outermost, returning the first match
(shadowing). -/
def scopeLookup (sc : Scope) (name : String) : Option ExecutorValue :=
  (List.find? (fun p => p.fst == name) sc).map Prod.snd

/-- Shallow rendering of a binding in scope-debug output: an embedded/atomic
binding renders as `V`, a struct binding as `<V>` (pinned by
`CreateValueComputationReferenceMissing`); the rendering of a lambda binding
is not pinned by any test and is modelled from the spec as a neutral tag. -/
def valueDebug : ExecutorValue → String
  | .embedded _ => "V"
  | .structV _ => "<V>"
  | .lambdaV _ _ _ => "L"

/-- Render the scope chain outer-to-inner, the root frame as `[]`, each
binding frame as `->[name=rendering]`. -/
def scopeDebug (sc : Scope) : String :=
  List.foldl (fun acc p => acc ++ "->[" ++ p.fst ++ "=" ++ valueDebug p.snd ++ "]")
    "[]" (List.reverse sc)

/-- Resolving-executor state: the trace of child-executor requests made so
far, the next externally-visible identifier (monotonically increasing), and
the identifier table mapping ids to internally-owned values. -/
structure RState where
  trace : List ChildReq
  nextId : Nat
  table : List (Nat × ExecutorValue)

/-- The initial state of a freshly constructed resolving executor. -/
def initState : RState := ⟨[], 0, []⟩

/-- Issue one request to the child executor, recording it in the trace. -/
def childCreate (c : Child) (req : ChildReq) (s : RState) :
    Except Err (Nat × RState) :=
  match c.create s.trace req with
  | .error e => .error e
  | .ok cid => .ok (cid, { s with trace := s.trace ++ [req] })

/-- Register a new internal value under a fresh externally-visible id. -/
def addValue (v : ExecutorValue) (s : RState) : Nat × RState :=
  (s.nextId, { s with nextId := s.nextId + 1, table := (s.nextId, v) :: s.table })

/-- Look an externally-visible id up in the identifier table. -/
def lookupValue (id : Nat) (s : RState) : Option ExecutorValue :=
  (List.find? (fun p => p.fst == id) s.table).map Prod.snd

/-- The error returned when the evaluation fuel runs out; the fuel only
bounds recursion depth and is never exhausted on the finite inputs the tests
exercise. -/
def fuelErr : Err := ⟨.outOfFuel, "out of fuel"⟩

/-- Embed each element of a list in order with the supplied embedding
function, collecting the child-side ids. -/
def embedElems (f : ExecutorValue → RState → Except Err (Nat × RState)) :
    List ExecutorValue → RState → Except Err (List Nat × RState)
  | [], s => .ok ([], s)
  | v :: rest, s =>
      match f v s with
      | .error e => .error e
      | .ok (cid, s2) =>
          match embedElems f rest s2 with
          | .error e => .error e
          | .ok (cids, s3) => .ok (cid :: cids, s3)

/-- Embed an internal value into the child executor, returning its child-side
id: an `Embedded` value is already there; a lazy `Struct` is forced bottom-up,
embedding every element and then issuing one child `CreateStruct` per struct
node; a `Lambda` is embedded by serializing its computation into a value and
issuing a child `CreateValue` (pinned by `LambdaArgumentToInstrinsicIsEmbedded`
and `MaterializeFailsOnChildFailure`).  The fuel bounds the nesting depth. -/
def embedValue (c : Child) : Nat → ExecutorValue → RState →
    Except Err (Nat × RState)
  | 0, _, _ => .error fuelErr
  | fuel + 1, v, s =>
      match v with
      | .embedded cid => .ok (cid, s)
      | .lambdaV p b _ => childCreate c (.createValue (.computation (.lam p b))) s
      | .structV elems =>
          match embedElems (embedValue c fuel) elems s with
          | .error e => .error e
          | .ok (cids, s2) => childCreate c (.createStruct cids) s2

/-- Apply a selection to an internal value: purely local on a lazy `Struct`
(out-of-range indices fail with `NotFound`), delegated to the child on an
`Embedded` value, and an `InvalidArgument` error on a `Lambda`. -/
def applySelection (c : Child) (v : ExecutorValue) (idx : Nat) (s : RState) :
    Except Err (ExecutorValue × RState) :=
  match v with
  | .structV elems =>
      match List.get? elems idx with
      | some e => .ok (e, s)
      | none =>
          .error ⟨.notFound,
            "Could not select index [" ++ toString idx ++
              "] on structure with length [" ++ toString elems.length ++ "]"⟩
  | .embedded cid =>
      match childCreate c (.createSelection cid idx) s with
      | .error e => .error e
      | .ok (rid, s2) => .ok (.embedded rid, s2)
  | .lambdaV _ _ _ =>
      .error ⟨.invalidArgument, "Cannot perform selection on Lambda"⟩

/-- Apply a call.  A `Lambda` function is evaluated immediately and purely at
this layer via the supplied evaluator: the argument, when the lambda has a
parameter name and an argument is present, is bound in a fresh frame over the
lambda's captured scope (an argument passed to a no-parameter lambda is
accepted and unused); an `Embedded` function is delegated to the child,
forcing a lazy argument first; a bare `Struct` is not a function. -/
def applyCall (c : Child) (embed : ExecutorValue → RState → Except Err (Nat × RState))
    (eval : Comp → Scope → RState → Except Err (ExecutorValue × RState))
    (fnV : ExecutorValue) (argV : Option ExecutorValue) (s : RState) :
    Except Err (ExecutorValue × RState) :=
  match fnV with
  | .lambdaV p b capturedSc =>
      match p, argV with
      | some name, some a => eval b ((name, a) :: capturedSc) s
      | _, _ => eval b capturedSc s
  | .embedded fcid =>
      match argV with
      | none =>
          match childCreate c (.createCall fcid none) s with
          | .error e => .error e
          | .ok (rid, s2) => .ok (.embedded rid, s2)
      | some a =>
          match embed a s with
          | .error e => .error e
          | .ok (acid, s2) =>
              match childCreate c (.createCall fcid (some acid)) s2 with
              | .error e => .error e
              | .ok (rid, s3) => .ok (.embedded rid, s3)
  | .structV _ =>
      .error ⟨.invalidArgument,
        "Received value type [STRUCTURE] which is not a function"⟩

/-- Evaluate one block local after another, each in the scope extended by all
strictly earlier locals of the block, pushing one frame per local. -/
def evalLocals (eval : Comp → Scope → RState → Except Err (ExecutorValue × RState)) :
    List (String × Comp) → Scope → RState → Except Err (Scope × RState)
  | [], sc, s => .ok (sc, s)
  | (n, comp) :: rest, sc, s =>
      match eval comp sc s with
      | .error e => .error e
      | .ok (v, s2) => evalLocals eval rest ((n, v) :: sc) s2

/-- Evaluate a list of computations left to right in a fixed scope. -/
def evalElems (eval : Comp → RState → Except Err (ExecutorValue × RState)) :
    List Comp → RState → Except Err (List ExecutorValue × RState)
  | [], s => .ok ([], s)
  | comp :: rest, s =>
      match eval comp s with
      | .error e => .error e
      | .ok (v, s2) =>
          match evalElems eval rest s2 with
          | .error e => .error e
          | .ok (vs, s3) => .ok (v :: vs, s3)

/-- Evaluate a computation in a scope (the implementation's `Evaluate`):
data/intrinsic/placement/tensorflow/xla leaves are embedded verbatim in the
child executor; a lambda captures the current scope with no child call; a
reference resolves against the scope, failing with `NotFound` and a rendered
scope chain when absent; a block evaluates its locals in order and then its
result in the extended scope; calls and selections evaluate their
sub-expressions and then apply; a struct of computations evaluates its
elements into a lazy local `Struct`. -/
def evaluate (c : Child) : Nat → Comp → Scope → RState →
    Except Err (ExecutorValue × RState)
  | 0, _, _, _ => .error fuelErr
  | fuel + 1, comp, sc, s =>
      match comp with
      | .data uri =>
          match childCreate c (.createValue (.computation (.data uri))) s with
          | .error e => .error e
          | .ok (cid, s2) => .ok (.embedded cid, s2)
      | .intrinsic uri =>
          match childCreate c (.createValue (.computation (.intrinsic uri))) s with
          | .error e => .error e
          | .ok (cid, s2) => .ok (.embedded cid, s2)
      | .placement uri =>
          match childCreate c (.createValue (.computation (.placement uri))) s with
          | .error e => .error e
          | .ok (cid, s2) => .ok (.embedded cid, s2)
      | .tensorflow =>
          match childCreate c (.createValue (.computation .tensorflow)) s with
          | .error e => .error e
          | .ok (cid, s2) => .ok (.embedded cid, s2)
      | .xla =>
          match childCreate c (.createValue (.computation .xla)) s with
          | .error e => .error e
          | .ok (cid, s2) => .ok (.embedded cid, s2)
      | .lam p b => .ok (.lambdaV p b sc, s)
      | .reference n =>
          match scopeLookup sc n with
          | some v => .ok (v, s)
          | none =>
              .error ⟨.notFound,
                "Could not find reference [" ++ n ++
                  "] while searching scope: " ++ scopeDebug sc⟩
      | .block locals result =>
          match evalLocals (evaluate c fuel) locals sc s with
          | .error e => .error e
          | .ok (sc2, s2) => evaluate c fuel result sc2 s2
      | .call fn arg =>
          match evaluate c fuel fn sc s with
          | .error e => .error e
          | .ok (fnV, s2) =>
              match arg with
              | none => applyCall c (embedValue c fuel) (evaluate c fuel) fnV none s2
              | some argComp =>
                  match evaluate c fuel argComp sc s2 with
                  | .error e => .error e
                  | .ok (argV, s3) => applyCall c (embedValue c fuel) (evaluate c fuel) fnV (some argV) s3
      | .selection src idx =>
          match evaluate c fuel src sc s with
          | .error e => .error e
          | .ok (srcV, s2) => applySelection c srcV idx s2
      | .structC elems =>
          match evalElems (fun comp => evaluate c fuel comp sc) elems s with
          | .error e => .error e
          | .ok (vs, s2) => .ok (.structV vs, s2)

/-- Convert each element of a serialized struct in order with the supplied
conversion function. -/
def evalVList (f : V0Value → RState → Except Err (ExecutorValue × RState)) :
    List V0Value → RState → Except Err (List ExecutorValue × RState)
  | [], s => .ok ([], s)
  | pb :: rest, s =>
      match f pb s with
      | .error e => .error e
      | .ok (v, s2) =>
          match evalVList f rest s2 with
          | .error e => .error e
          | .ok (vs, s3) => .ok (v :: vs, s3)

/-- Convert a serialized value into an internal value: array, sequence and
federated values are delegated whole to the child in one `CreateValue` each; a
struct of values recursively creates each element and stays a lazy local
`Struct` with no child call; a computation is evaluated in the root scope.
The fuel bounds the nesting depth. -/
def evalValue (c : Child) : Nat → V0Value → RState →
    Except Err (ExecutorValue × RState)
  | 0, _, _ => .error fuelErr
  | fuel + 1, pb, s =>
      match pb with
      | .array p =>
          match childCreate c (.createValue (.array p)) s with
          | .error e => .error e
          | .ok (cid, s2) => .ok (.embedded cid, s2)
      | .sequence p =>
          match childCreate c (.createValue (.sequence p)) s with
          | .error e => .error e
          | .ok (cid, s2) => .ok (.embedded cid, s2)
      | .federated members =>
          match childCreate c (.createValue (.federated members)) s with
          | .error e => .error e
          | .ok (cid, s2) => .ok (.embedded cid, s2)
      | .structV elems =>
          match evalVList (evalValue c fuel) elems s with
          | .error e => .error e
          | .ok (vs, s2) => .ok (.structV vs, s2)
      | .computation comp => evaluate c fuel comp [] s

/-- `CreateValue`: convert the serialized value and register the result under
a fresh id. -/
def createValue (c : Child) (fuel : Nat) (pb : V0Value) (s : RState) :
    Except Err (Nat × RState) :=
  match evalValue c fuel pb s with
  | .error e => .error e
  | .ok (v, s2) => .ok (addValue v s2)

/-- The error for an unknown externally-visible id. -/
def unknownIdErr (id : Nat) : Err :=
  ⟨.notFound, "ReferenceResolvingExecutor value not found: " ++ toString id⟩

/-- Look up every element id for `CreateStruct`. -/
def lookupAll (ids : List Nat) (s : RState) : Except Err (List ExecutorValue) :=
  match ids with
  | [] => .ok []
  | id :: rest =>
      match lookupValue id s with
      | none => .error (unknownIdErr id)
      | some v =>
          match lookupAll rest s with
          | .error e => .error e
          | .ok vs => .ok (v :: vs)

/-- `CreateStruct`: always produces a new local `Struct` value referencing the
given already-created values; never touches the child executor. -/
def createStruct (c : Child) (ids : List Nat) (s : RState) :
    Except Err (Nat × RState) :=
  match lookupAll ids s with
  | .error e => .error e
  | .ok vs => .ok (addValue (ExecutorValue.structV vs) s)

/-- `CreateSelection`: resolve the source id and apply the selection,
registering the result under a fresh id. -/
def createSelection (c : Child) (id : Nat) (idx : Nat) (s : RState) :
    Except Err (Nat × RState) :=
  match lookupValue id s with
  | none => .error (unknownIdErr id)
  | some v =>
      match applySelection c v idx s with
      | .error e => .error e
      | .ok (rv, s2) => .ok (addValue rv s2)

/-- `CreateCall`: resolve the function id (and argument id, when present) and
apply the call, registering the result under a fresh id. -/
def createCall (c : Child) (fuel : Nat) (fnId : Nat) (argId : Option Nat)
    (s : RState) : Except Err (Nat × RState) :=
  match lookupValue fnId s with
  | none => .error (unknownIdErr fnId)
  | some fnV =>
      match argId with
      | none =>
          match applyCall c (embedValue c fuel) (evaluate c fuel) fnV none s with
          | .error e => .error e
          | .ok (rv, s2) => .ok (addValue rv s2)
      | some aid =>
          match lookupValue aid s with
          | none => .error (unknownIdErr aid)
          | some argV =>
              match applyCall c (embedValue c fuel) (evaluate c fuel) fnV (some argV) s with
              | .error e => .error e
              | .ok (rv, s2) => .ok (addValue rv s2)

/-- `Materialize`: force full reification by embedding the value into the
child (a no-op for an already `Embedded` value, one `CreateStruct` per struct
level bottom-up for a lazy `Struct`, a child `CreateValue` of the serialized
lambda for a `Lambda`) and then delegating to the child's materialize. -/
def materialize (c : Child) (fuel : Nat) (id : Nat) (s : RState) :
    Except Err (V0Value × RState) :=
  match lookupValue id s with
  | none => .error (unknownIdErr id)
  | some v =>
      match embedValue c fuel v s with
      | .error e => .error e
      | .ok (cid, s2) =>
          match c.mater s2.trace cid with
          | .error e => .error e
          | .ok pb => .ok (pb, { s2 with trace := s2.trace ++ [.materialize cid] })

/-- A child executor that never fails: its create operations answer with the
supplied id-choosing function and its materialize with the supplied payload
function.  Quantifying over `f` and `g` ranges over every deterministic
non-failing child. -/
def okChild (f : List ChildReq → ChildReq → Nat)
    (g : List ChildReq → Nat → V0Value) : Child :=
  ⟨fun t r => .ok (f t r), fun t i => .ok (g t i)⟩

/-- The child id-choosing function used for concrete test replays: ids count
the requests made so far, so child ids are 0, 1, 2, … in call order. -/
def seqIds : List ChildReq → ChildReq → Nat := fun t _ => t.length



/-- A serialized value the executor embeds verbatim as a leaf: a tensor/array,
a sequence, or a federated collection. -/
def IsLeaf : V0Value → Prop
  | .array _ => True
  | .sequence _ => True
  | .federated _ => True
  | .structV _ => False
  | .computation _ => False

theorem evalValue_structV (c : Child) (fuel : Nat) (elems : List V0Value)
    (s : RState) :
    evalValue c (fuel + 1) (.structV elems) s =
      match evalVList (evalValue c fuel) elems s with
      | .error e => .error e
      | .ok (vs, s2) => .ok (.structV vs, s2) := rfl

theorem childCreate_okChild (f : List ChildReq → ChildReq → Nat)
    (g : List ChildReq → Nat → V0Value) (req : ChildReq) (s : RState) :
    childCreate (okChild f g) req s =
      .ok (f s.trace req, ⟨s.trace ++ [req], s.nextId, s.table⟩) := rfl

theorem evalValue_leaf (f : List ChildReq → ChildReq → Nat)
    (g : List ChildReq → Nat → V0Value) (fuel : Nat) (v : V0Value)
    (s : RState) (hv : IsLeaf v) :
    evalValue (okChild f g) (fuel + 1) v s =
      .ok (.embedded (f s.trace (.createValue v)),
        ⟨s.trace ++ [.createValue v], s.nextId, s.table⟩) := by
  cases v <;> simp [IsLeaf] at hv <;>
    simp [evalValue, childCreate_okChild]

/-- The embedded values produced by creating a list of leaf values in order,
starting from the given child-call trace: the i-th element holds exactly the
child id the child executor handed out for the i-th leaf. -/
def leafEmbeds (f : List ChildReq → ChildReq → Nat) :
    List V0Value → List ChildReq → List ExecutorValue
  | [], _ => []
  | v :: rest, t =>
      .embedded (f t (.createValue v)) :: leafEmbeds f rest (t ++ [.createValue v])

theorem evalVList_leaves (f : List ChildReq → ChildReq → Nat)
    (g : List ChildReq → Nat → V0Value) (fuel : Nat) :
    ∀ (leaves : List V0Value) (s : RState), (∀ v ∈ leaves, IsLeaf v) →
      evalVList (evalValue (okChild f g) (fuel + 1)) leaves s =
        .ok (leafEmbeds f leaves s.trace,
          ⟨s.trace ++ leaves.map ChildReq.createValue, s.nextId, s.table⟩) := by
  intro leaves
  induction leaves with
  | nil =>
      intro s _
      simp [evalVList, leafEmbeds]
  | cons v rest ih =>
      intro s hleaf
      have hrest := ih ⟨s.trace ++ [.createValue v], s.nextId, s.table⟩
        (fun w hw => hleaf w (List.mem_cons_of_mem v hw))
      simp [evalVList, evalValue_leaf f g fuel v s (hleaf v (List.mem_cons_self v rest)),
        hrest, leafEmbeds]

/-- C1: For every well-formed struct value of N elements created through the
resolving executor — via `CreateValue` on a struct (of any element shapes,
nested structs included), or via `CreateStruct` over already-created element
ids — creating the struct itself triggers no child-executor call: the
registered value is exactly the lazy `Struct` of the elementwise-created
values.  For a struct of leaf elements the result is pinned completely: one
child `CreateValue` per leaf in order and the i-th element holding exactly
the child id handed out for the i-th leaf.  For every in-bounds index i,
`CreateSelection` on the struct's id succeeds, returns a fresh id mapped to
exactly the i-th element value, and makes no child-executor call. -/
theorem claim_C1 :
    (∀ (c : Child) (fuel : Nat) (elems : List V0Value) (s : RState)
        (vs : List ExecutorValue) (s2 : RState),
      evalVList (evalValue c fuel) elems s = .ok (vs, s2) →
      createValue c (fuel + 1) (.structV elems) s =
        .ok (addValue (.structV vs) s2)) ∧
    (∀ (f : List ChildReq → ChildReq → Nat) (g : List ChildReq → Nat → V0Value)
        (fuel : Nat) (leaves : List V0Value) (s : RState),
      (∀ v ∈ leaves, IsLeaf v) →
      createValue (okChild f g) (fuel + 2) (.structV leaves) s =
        .ok (s.nextId,
          ⟨s.trace ++ leaves.map ChildReq.createValue, s.nextId + 1,
            (s.nextId, .structV (leafEmbeds f leaves s.trace)) :: s.table⟩)) ∧
    (∀ (f : List ChildReq → ChildReq → Nat) (leaves : List V0Value)
        (t : List ChildReq) (i : Nat),
      List.get? (leafEmbeds f leaves t) i =
        (List.get? leaves i).map
          (fun v => .embedded
            (f (t ++ (leaves.take i).map ChildReq.createValue) (.createValue v)))) ∧
    (∀ (c : Child) (ids : List Nat) (vs : List ExecutorValue) (s : RState),
      lookupAll ids s = .ok vs →
      createStruct c ids s =
        .ok (s.nextId, ⟨s.trace, s.nextId + 1, (s.nextId, .structV vs) :: s.table⟩)) ∧
    (∀ (c : Child) (sid i : Nat) (vs : List ExecutorValue) (e : ExecutorValue)
        (s : RState),
      lookupValue sid s = some (.structV vs) → List.get? vs i = some e →
      createSelection c sid i s =
        .ok (s.nextId, ⟨s.trace, s.nextId + 1, (s.nextId, e) :: s.table⟩)) := by
  refine ⟨?_, ?_, ?_, ?_, ?_⟩
  · intro c fuel elems s vs s2 h
    simp [createValue, evalValue_structV, h]
  · intro f g fuel leaves s hleaf
    simp [createValue, evalValue_structV, evalVList_leaves f g fuel leaves s hleaf,
      addValue]
  · intro f leaves
    induction leaves with
    | nil => intro t i; simp [leafEmbeds]
    | cons v rest ih =>
        intro t i
        cases i with
        | zero => simp [leafEmbeds]
        | succ i =>
            have h := ih (t ++ [.createValue v]) i
            simpa [leafEmbeds, List.append_assoc, List.map_take] using h
  · intro c ids vs s h
    simp [createStruct, h, addValue]
  · intro c sid i vs e s hsid hi
    rw [List.get?_eq_getElem?] at hi
    simp [createSelection, hsid, applySelection, hi, addValue]

/-- Witness for C1 at concrete inputs: a nested struct created elementwise
via `CreateValue`, a flat struct of three tensors whose elements are pinned
to the child ids 0, 1, 2, the element-pinning equation at index 1, a
`CreateStruct` over two already-created ids, and selections on the created
structs returning exactly the stored elements. -/
theorem claim_C1_witness :
    createValue (okChild seqIds (fun _ _ => .array 0)) 10
        (.structV [.structV [.array 1], .array 2]) initState =
      .ok (0,
        ⟨[.createValue (.array 1), .createValue (.array 2)], 1,
          [(0, .structV [.structV [.embedded 0], .embedded 1])]⟩) ∧
    createValue (okChild seqIds (fun _ _ => .array 0)) 10
        (.structV [.array 1, .array 2, .array 3]) initState =
      .ok (0,
        ⟨[.createValue (.array 1), .createValue (.array 2), .createValue (.array 3)],
          1, [(0, .structV [.embedded 0, .embedded 1, .embedded 2])]⟩) ∧
    List.get? (leafEmbeds seqIds [.array 1, .array 2, .array 3] []) 1 =
      some (.embedded 1) ∧
    createStruct (okChild seqIds (fun _ _ => .array 0)) [0, 1]
        ⟨[], 2, [(0, .embedded 4), (1, .embedded 7)]⟩ =
      .ok (2, ⟨[], 3, [(2, .structV [.embedded 4, .embedded 7]),
        (0, .embedded 4), (1, .embedded 7)]⟩) ∧
    createSelection (okChild seqIds (fun _ _ => .array 0)) 0 1
        ⟨[.createValue (.array 1), .createValue (.array 2), .createValue (.array 3)],
          1, [(0, .structV [.embedded 0, .embedded 1, .embedded 2])]⟩ =
      .ok (1,
        ⟨[.createValue (.array 1), .createValue (.array 2), .createValue (.array 3)],
          2, [(1, .embedded 1),
            (0, .structV [.embedded 0, .embedded 1, .embedded 2])]⟩) := by
  refine ⟨?_, ?_, ?_, ?_, ?_⟩
  · exact claim_C1.1 (okChild seqIds (fun _ _ => .array 0)) 9
      [.structV [.array 1], .array 2] initState
      [.structV [.embedded 0], .embedded 1]
      ⟨[.createValue (.array 1), .createValue (.array 2)], 0, []⟩ rfl
  · exact claim_C1.2.1 seqIds (fun _ _ => .array 0) 8 [.array 1, .array 2, .array 3]
      initState (by simp [IsLeaf])
  · exact claim_C1.2.2.1 seqIds [.array 1, .array 2, .array 3] [] 1
  · exact claim_C1.2.2.2.1 (okChild seqIds (fun _ _ => .array 0)) [0, 1]
      [.embedded 4, .embedded 7] ⟨[], 2, [(0, .embedded 4), (1, .embedded 7)]⟩ rfl
  · exact claim_C1.2.2.2.2 (okChild seqIds (fun _ _ => .array 0)) 0 1
      [.embedded 0, .embedded 1, .embedded 2] (.embedded 1)
      ⟨[.createValue (.array 1), .createValue (.array 2), .createValue (.array 3)],
        1, [(0, .structV [.embedded 0, .embedded 1, .embedded 2])]⟩ rfl rfl

/-- C2: `CreateCall` on an internal `Lambda` is evaluated entirely at the
resolving-executor layer, for every optional argument.  (a) With a parameter
and an argument, the argument is bound in a fresh scope frame under the
parameter name over the lambda's captured scope and the body is evaluated
there; the body's value, registered under a fresh id, is the call's entire
result — no child `CreateCall` is issued for the lambda itself, the only
child interaction is whatever the body's own evaluation performs.  (b) With a
parameter but no argument, and (c) with no parameter and no argument, the
body is evaluated in the captured scope alone and its value becomes the
call's result (the `NoArgLambda` behaviour).  (d) Passing an argument to a
no-parameter lambda is accepted without error and behaves exactly like
calling it with no argument — by (c), the body's value in the captured scope,
with the argument unused.  (e) For an identity lambda the call returns the
argument value itself with the state unchanged except for the fresh id — no
child-executor call at all. -/
theorem claim_C2 :
    (∀ (c : Child) (fuel : Nat) (s : RState) (fnId aid : Nat) (p : String)
        (b : Comp) (sc : Scope) (argV : ExecutorValue),
      lookupValue fnId s = some (.lambdaV (some p) b sc) →
      lookupValue aid s = some argV →
      createCall c fuel fnId (some aid) s =
        match evaluate c fuel b ((p, argV) :: sc) s with
        | .error e => .error e
        | .ok (rv, s2) => .ok (addValue rv s2)) ∧
    (∀ (c : Child) (fuel : Nat) (s : RState) (fnId : Nat) (p : String)
        (b : Comp) (sc : Scope),
      lookupValue fnId s = some (.lambdaV (some p) b sc) →
      createCall c fuel fnId none s =
        match evaluate c fuel b sc s with
        | .error e => .error e
        | .ok (rv, s2) => .ok (addValue rv s2)) ∧
    (∀ (c : Child) (fuel : Nat) (s : RState) (fnId : Nat)
        (b : Comp) (sc : Scope),
      lookupValue fnId s = some (.lambdaV none b sc) →
      createCall c fuel fnId none s =
        match evaluate c fuel b sc s with
        | .error e => .error e
        | .ok (rv, s2) => .ok (addValue rv s2)) ∧
    (∀ (c : Child) (fuel : Nat) (s : RState) (fnId aid : Nat)
        (b : Comp) (sc : Scope) (argV : ExecutorValue),
      lookupValue fnId s = some (.lambdaV none b sc) →
      lookupValue aid s = some argV →
      createCall c fuel fnId (some aid) s = createCall c fuel fnId none s) ∧
    (∀ (c : Child) (fuel : Nat) (s : RState) (fnId aid : Nat) (p : String)
        (sc : Scope) (argV : ExecutorValue),
      lookupValue fnId s = some (.lambdaV (some p) (.reference p) sc) →
      lookupValue aid s = some argV →
      createCall c (fuel + 1) fnId (some aid) s = .ok (addValue argV s)) := by
  refine ⟨?_, ?_, ?_, ?_, ?_⟩
  · intro c fuel s fnId aid p b sc argV hfn harg
    simp [createCall, hfn, harg, applyCall]
  · intro c fuel s fnId p b sc hfn
    simp [createCall, hfn, applyCall]
  · intro c fuel s fnId b sc hfn
    simp [createCall, hfn, applyCall]
  · intro c fuel s fnId aid b sc argV hfn harg
    simp [createCall, hfn, harg, applyCall]
  · intro c fuel s fnId aid p sc argV hfn harg
    simp [createCall, hfn, harg, applyCall, evaluate, scopeLookup]

/-- Witness for C2 at concrete inputs: the `OneArgLambda` scenario (an
identity lambda called with an embedded tensor argument returns the
argument), the `NoArgLambda` scenario (a no-parameter lambda wrapping a data
computation is called with no argument: the body is evaluated, embedding the
data in the child, and the embedded value becomes the call's result), the
same no-parameter lambda called with an argument succeeding identically with
the argument unused, and a with-parameter lambda called with no argument. -/
theorem claim_C2_witness :
    createCall (okChild seqIds (fun _ _ => .array 0)) 10 0 (some 1)
        ⟨[.createValue (.array 1)], 2,
          [(1, .embedded 0), (0, .lambdaV (some "test_arg") (.reference "test_arg") [])]⟩ =
      .ok (2, ⟨[.createValue (.array 1)], 3,
        [(2, .embedded 0), (1, .embedded 0),
          (0, .lambdaV (some "test_arg") (.reference "test_arg") [])]⟩) ∧
    createCall (okChild seqIds (fun _ _ => .array 0)) 10 0 none
        ⟨[], 1, [(0, .lambdaV none (.data "test_data_uri") [])]⟩ =
      .ok (1, ⟨[.createValue (.computation (.data "test_data_uri"))], 2,
        [(1, .embedded 0), (0, .lambdaV none (.data "test_data_uri") [])]⟩) ∧
    createCall (okChild seqIds (fun _ _ => .array 0)) 10 0 (some 1)
        ⟨[], 2, [(1, .embedded 5), (0, .lambdaV none (.data "test_data_uri") [])]⟩ =
      createCall (okChild seqIds (fun _ _ => .array 0)) 10 0 none
        ⟨[], 2, [(1, .embedded 5), (0, .lambdaV none (.data "test_data_uri") [])]⟩ ∧
    createCall (okChild seqIds (fun _ _ => .array 0)) 10 0 none
        ⟨[], 1, [(0, .lambdaV (some "test_arg") (.data "test_data_uri") [])]⟩ =
      .ok (1, ⟨[.createValue (.computation (.data "test_data_uri"))], 2,
        [(1, .embedded 0), (0, .lambdaV (some "test_arg") (.data "test_data_uri") [])]⟩) := by
  refine ⟨?_, ?_, ?_, ?_⟩
  · exact claim_C2.2.2.2.2 (okChild seqIds (fun _ _ => .array 0)) 9
      ⟨[.createValue (.array 1)], 2,
        [(1, .embedded 0), (0, .lambdaV (some "test_arg") (.reference "test_arg") [])]⟩
      0 1 "test_arg" [] (.embedded 0) rfl rfl
  · exact claim_C2.2.2.1 (okChild seqIds (fun _ _ => .array 0)) 10
      ⟨[], 1, [(0, .lambdaV none (.data "test_data_uri") [])]⟩
      0 (.data "test_data_uri") [] rfl
  · exact claim_C2.2.2.2.1 (okChild seqIds (fun _ _ => .array 0)) 10
      ⟨[], 2, [(1, .embedded 5), (0, .lambdaV none (.data "test_data_uri") [])]⟩
      0 1 (.data "test_data_uri") [] (.embedded 5) rfl rfl
  · exact claim_C2.2.1 (okChild seqIds (fun _ _ => .array 0)) 10
      ⟨[], 1, [(0, .lambdaV (some "test_arg") (.data "test_data_uri") [])]⟩
      0 "test_arg" (.data "test_data_uri") [] rfl

/-- C3 counterexample: replaying `LambdaArgumentToInstrinsicIsEmbedded`
(a call of an intrinsic with a lambda argument), the resolving executor does
issue a child `CreateValue` carrying the lambda computation — the lambda is
embedded in the child executor, contradicting the claimed invariant. -/
theorem claim_C3_counterexample :
    createValue (okChild seqIds (fun _ _ => .array 0)) 10
        (.computation (.call (.intrinsic "test_intrinsic")
          (some (.lam (some "test_arg") (.reference "test_arg"))))) initState =
      .ok (0,
        ⟨[.createValue (.computation (.intrinsic "test_intrinsic")),
          .createValue (.computation (.lam (some "test_arg") (.reference "test_arg"))),
          .createCall 0 (some 1)], 1, [(0, .embedded 2)]⟩) ∧
    ChildReq.createValue
        (.computation (.lam (some "test_arg") (.reference "test_arg"))) ∈
      [ChildReq.createValue (.computation (.intrinsic "test_intrinsic")),
        ChildReq.createValue (.computation (.lam (some "test_arg") (.reference "test_arg"))),
        ChildReq.createCall 0 (some 1)] := by
  exact ⟨rfl, by simp⟩

/-- C3 (amended): creating a lambda through `CreateValue` is purely local —
no child-executor call is made and the lambda is held as an internal closure —
but the invariant stops there: whenever a lambda must be forced into the
child (as the argument of a call to an embedded function, or on
materialization), the executor embeds the lambda's serialized computation via
a child `CreateValue`. -/
theorem claim_C3_amended :
    (∀ (c : Child) (fuel : Nat) (p : Option String) (b : Comp) (s : RState),
      createValue c (fuel + 2) (.computation (.lam p b)) s =
        .ok (addValue (.lambdaV p b []) s)) ∧
    (∀ (c : Child) (fuel : Nat) (p : Option String) (b : Comp) (sc : Scope)
        (s : RState),
      embedValue c (fuel + 1) (.lambdaV p b sc) s =
        childCreate c (.createValue (.computation (.lam p b))) s) := by
  exact ⟨fun c fuel p b s => rfl, fun c fuel p b sc s => rfl⟩

/-- C4 counterexample: `Materialize` on a never-called lambda does not fail
when the child executor succeeds — the lambda is embedded into the child and
the child's materialize result is returned. -/
theorem claim_C4_counterexample :
    materialize (okChild seqIds (fun _ _ => .array 7)) 10 0
        ⟨[], 1, [(0, .lambdaV (some "test_arg") (.reference "test_arg") [])]⟩ =
      .ok (.array 7,
        ⟨[.createValue (.computation (.lam (some "test_arg") (.reference "test_arg"))),
          .materialize 0], 1,
          [(0, .lambdaV (some "test_arg") (.reference "test_arg") [])]⟩) := rfl

/-- C4 (amended): `Materialize` on a never-called lambda embeds the lambda's
serialized computation into the child via one child `CreateValue` and then
delegates materialization to the child, returning whatever the child returns;
in particular when the child's materialize fails, the failure is propagated
verbatim (the `MaterializeFailsOnChildFailure` scenario). -/
theorem claim_C4_amended :
    (∀ (c : Child) (fuel id : Nat) (p : Option String) (b : Comp) (sc : Scope)
        (s : RState),
      lookupValue id s = some (.lambdaV p b sc) →
      materialize c (fuel + 1) id s =
        match childCreate c (.createValue (.computation (.lam p b))) s with
        | .error e => .error e
        | .ok (cid, s2) =>
            match c.mater s2.trace cid with
            | .error e => .error e
            | .ok pb => .ok (pb, { s2 with trace := s2.trace ++ [.materialize cid] })) ∧
    (∀ (f : List ChildReq → ChildReq → Nat) (e : Err) (fuel id : Nat)
        (p : Option String) (b : Comp) (sc : Scope) (s : RState),
      lookupValue id s = some (.lambdaV p b sc) →
      materialize ⟨fun t r => .ok (f t r), fun _ _ => .error e⟩ (fuel + 1) id s =
        .error e) := by
  constructor
  · intro c fuel id p b sc s hl
    simp [materialize, hl, embedValue]
  · intro f e fuel id p b sc s hl
    simp [materialize, hl, embedValue, childCreate]

/-- Witness for C4 (amended) at the `MaterializeFailsOnChildFailure` inputs:
an identity lambda at id 0 and a child whose materialize reports an internal
error; the resolving executor returns exactly that error. -/
theorem claim_C4_amended_witness :
    materialize ⟨fun t r => .ok (seqIds t r),
        fun _ _ => .error ⟨.internal, "child test error"⟩⟩ 10 0
      ⟨[], 1, [(0, .lambdaV (some "test_arg") (.reference "test_arg") [])]⟩ =
      .error ⟨.internal, "child test error"⟩ :=
  claim_C4_amended.2 seqIds ⟨.internal, "child test error"⟩ 9 0
    (some "test_arg") (.reference "test_arg") []
    ⟨[], 1, [(0, .lambdaV (some "test_arg") (.reference "test_arg") [])]⟩ rfl

theorem evalValue_computation (c : Child) (fuel : Nat) (comp : Comp) (s : RState) :
    evalValue c (fuel + 1) (.computation comp) s = evaluate c fuel comp [] s := rfl

theorem evaluate_block (c : Child) (fuel : Nat) (locals : List (String × Comp))
    (result : Comp) (sc : Scope) (s : RState) :
    evaluate c (fuel + 1) (.block locals result) sc s =
      match evalLocals (evaluate c fuel) locals sc s with
      | .error e => .error e
      | .ok (sc2, s2) => evaluate c fuel result sc2 s2 := rfl

theorem evaluate_reference_missing (c : Child) (fuel : Nat) (sc : Scope)
    (n : String) (s : RState) (h : scopeLookup sc n = none) :
    evaluate c (fuel + 1) (.reference n) sc s =
      .error ⟨.notFound,
        "Could not find reference [" ++ n ++ "] while searching scope: " ++
          scopeDebug sc⟩ := by
  simp [evaluate, h]

/-- C5: evaluating a reference to a name not bound in the ambient scope fails
with `NotFound`, the error message naming the missing identifier and
rendering the full scope chain outer-to-inner, the root frame as `[]`, an
embedded/atomic binding as `name=V` and a struct binding as `name=<V>`; in
particular a `CreateValue` of a block whose result references an unbound name
fails that way, with the scope extended by all the block's locals, and the
concrete `CreateValueComputationReferenceMissing` scenario produces exactly
`[]->[test_ref=V]->[test_ref2=<V>]`. -/
theorem claim_C5 :
    (∀ (c : Child) (fuel : Nat) (sc : Scope) (n : String) (s : RState),
      scopeLookup sc n = none →
      evaluate c (fuel + 1) (.reference n) sc s =
        .error ⟨.notFound,
          "Could not find reference [" ++ n ++ "] while searching scope: " ++
            scopeDebug sc⟩) ∧
    (∀ (c : Child) (fuel : Nat) (locals : List (String × Comp)) (n : String)
        (s : RState) (sc2 : Scope) (s2 : RState),
      evalLocals (evaluate c (fuel + 1)) locals [] s = .ok (sc2, s2) →
      scopeLookup sc2 n = none →
      createValue c (fuel + 3) (.computation (.block locals (.reference n))) s =
        .error ⟨.notFound,
          "Could not find reference [" ++ n ++ "] while searching scope: " ++
            scopeDebug sc2⟩) ∧
    createValue (okChild seqIds (fun _ _ => .array 0)) 10
        (.computation (.block
          [("test_ref", .data "test_data_uri"),
            ("test_ref2", .structC [.data "test_data_uri2", .data "test_data_uri3"])]
          (.reference "test_ref3"))) initState =
      .error ⟨.notFound,
        "Could not find reference [test_ref3] while searching scope: []->[test_ref=V]->[test_ref2=<V>]"⟩ := by
  refine ⟨evaluate_reference_missing, ?_, rfl⟩
  intro c fuel locals n s sc2 s2 hloc hn
  simp [createValue, evalValue_computation, evaluate_block, hloc,
    evaluate_reference_missing c fuel sc2 n s2 hn]

/-- Witness for C5 at concrete inputs: an unbound reference inside a
two-frame scope, and a block whose two locals are in scope when the missing
result reference is evaluated. -/
theorem claim_C5_witness :
    evaluate (okChild seqIds (fun _ _ => .array 0)) 10 (.reference "test_ref3")
        [("test_ref2", .structV [.embedded 1, .embedded 2]), ("test_ref", .embedded 0)]
        initState =
      .error ⟨.notFound,
        "Could not find reference [test_ref3] while searching scope: []->[test_ref=V]->[test_ref2=<V>]"⟩ ∧
    createValue (okChild seqIds (fun _ _ => .array 0)) 10
        (.computation (.block [("test_ref", .data "test_data_uri")]
          (.reference "missing_name"))) initState =
      .error ⟨.notFound,
        "Could not find reference [missing_name] while searching scope: []->[test_ref=V]"⟩ := by
  constructor
  · exact claim_C5.1 (okChild seqIds (fun _ _ => .array 0)) 9
      [("test_ref2", .structV [.embedded 1, .embedded 2]), ("test_ref", .embedded 0)]
      "test_ref3" initState rfl
  · exact claim_C5.2.1 (okChild seqIds (fun _ _ => .array 0)) 7
      [("test_ref", .data "test_data_uri")] "missing_name" initState
      [("test_ref", .embedded 0)]
      ⟨[.createValue (.computation (.data "test_data_uri"))], 0, []⟩ rfl rfl

/-- C6: shadowing.  (a) For a block binding the same local name twice, a
reference to that name in the block's result resolves to the second, most
recent binding: the result is the embedded value the child handed out for the
second local's computation, not the first.  (b) A lambda parameter binding
shadows an equally-named binding of the enclosing captured scope while the
body is evaluated: calling such a lambda returns the call argument, not the
captured binding.  (c) The concrete `LambdaArgumentScopeHidesBlockNamedValue`
scenario: calling the block-produced lambda with an embedded argument yields
the argument's value, not the block local of the same name. -/
theorem claim_C6 :
    (∀ (f : List ChildReq → ChildReq → Nat) (g : List ChildReq → Nat → V0Value)
        (fuel : Nat) (s : RState) (n uri1 uri2 : String),
      createValue (okChild f g) (fuel + 4)
          (.computation (.block [(n, .data uri1), (n, .data uri2)] (.reference n))) s =
        .ok (s.nextId,
          ⟨s.trace ++ [.createValue (.computation (.data uri1)),
              .createValue (.computation (.data uri2))], s.nextId + 1,
            (s.nextId,
              .embedded (f (s.trace ++ [.createValue (.computation (.data uri1))])
                (.createValue (.computation (.data uri2))))) :: s.table⟩)) ∧
    (∀ (c : Child) (fuel : Nat) (s : RState) (fnId aid : Nat) (n : String)
        (w argV : ExecutorValue) (sc : Scope),
      lookupValue fnId s = some (.lambdaV (some n) (.reference n) ((n, w) :: sc)) →
      lookupValue aid s = some argV →
      createCall c (fuel + 1) fnId (some aid) s = .ok (addValue argV s)) ∧
    createCall (okChild seqIds (fun _ _ => .array 0)) 10 0 (some 1)
        ⟨[.createValue (.computation (.data "test_data_uri")), .createValue (.array 1)],
          2,
          [(1, .embedded 1),
            (0, .lambdaV (some "test_arg") (.reference "test_arg")
              [("test_arg", .embedded 0)])]⟩ =
      .ok (2,
        ⟨[.createValue (.computation (.data "test_data_uri")), .createValue (.array 1)],
          3,
          [(2, .embedded 1), (1, .embedded 1),
            (0, .lambdaV (some "test_arg") (.reference "test_arg")
              [("test_arg", .embedded 0)])]⟩) := by
  refine ⟨?_, ?_, rfl⟩
  · intro f g fuel s n uri1 uri2
    simp [createValue, evalValue_computation, evaluate_block, evalLocals,
      evaluate, childCreate_okChild, scopeLookup, addValue]
  · intro c fuel s fnId aid n w argV sc hfn harg
    simp [createCall, hfn, harg, applyCall, evaluate, scopeLookup]

/-- Witness for C6 at concrete inputs: a lambda whose captured scope already
binds `test_arg` to the embedded value 0, called with the embedded value 1 —
the call result is the argument, the parameter binding having shadowed the
captured one. -/
theorem claim_C6_witness :
    createCall (okChild seqIds (fun _ _ => .array 0)) 8 5 (some 6)
        ⟨[], 7,
          [(6, .embedded 1),
            (5, .lambdaV (some "test_arg") (.reference "test_arg")
              [("test_arg", .embedded 0)])]⟩ =
      .ok (7,
        ⟨[], 8,
          [(7, .embedded 1), (6, .embedded 1),
            (5, .lambdaV (some "test_arg") (.reference "test_arg")
              [("test_arg", .embedded 0)])]⟩) :=
  claim_C6.2.1 (okChild seqIds (fun _ _ => .array 0)) 7
    ⟨[], 7,
      [(6, .embedded 1),
        (5, .lambdaV (some "test_arg") (.reference "test_arg")
          [("test_arg", .embedded 0)])]⟩
    5 6 "test_arg" (.embedded 0) (.embedded 1) [] rfl rfl

theorem embedValue_embedded (c : Child) (fuel cid : Nat) (s : RState) :
    embedValue c (fuel + 1) (.embedded cid) s = .ok (cid, s) := rfl

theorem embedValue_structV (c : Child) (fuel : Nat) (elems : List ExecutorValue)
    (s : RState) :
    embedValue c (fuel + 1) (.structV elems) s =
      match embedElems (embedValue c fuel) elems s with
      | .error e => .error e
      | .ok (cids, s2) => childCreate c (.createStruct cids) s2 := rfl

theorem embedElems_embedded (c : Child) (fuel : Nat) :
    ∀ (cids : List Nat) (s : RState),
      embedElems (embedValue c (fuel + 1)) (cids.map ExecutorValue.embedded) s =
        .ok (cids, s) := by
  intro cids
  induction cids with
  | nil => intro s; rfl
  | cons cid rest ih => intro s; simp [embedElems, embedValue_embedded, ih]

/-- C7: `CreateCall` of an `Embedded` function on a lazy local `Struct`
argument first forces the argument into the child executor — bottom-up, via
child `CreateStruct` over the elements' child-side ids — and only then issues
exactly one child `CreateCall` with the function's child id and the freshly
created child-side struct id; the call's result is a new internal `Embedded`
value wrapping the child's call-result identifier.  (a) covers a flat struct
of embedded elements with the exact child ids; (b) replays a nested struct
concretely, showing the inner struct is forced before the outer one. -/
theorem claim_C7 :
    (∀ (f : List ChildReq → ChildReq → Nat) (g : List ChildReq → Nat → V0Value)
        (fuel : Nat) (s : RState) (fnId aid fcid : Nat) (cids : List Nat),
      lookupValue fnId s = some (.embedded fcid) →
      lookupValue aid s = some (.structV (cids.map ExecutorValue.embedded)) →
      createCall (okChild f g) (fuel + 2) fnId (some aid) s =
        .ok (s.nextId,
          ⟨s.trace ++ [.createStruct cids,
              .createCall fcid (some (f s.trace (.createStruct cids)))],
            s.nextId + 1,
            (s.nextId,
              .embedded (f (s.trace ++ [.createStruct cids])
                (.createCall fcid (some (f s.trace (.createStruct cids)))))) ::
              s.table⟩)) ∧
    createCall (okChild seqIds (fun _ _ => .array 0)) 10 0 (some 1)
        ⟨[], 2,
          [(1, .structV [.structV [.embedded 4], .embedded 7]), (0, .embedded 9)]⟩ =
      .ok (2,
        ⟨[.createStruct [4], .createStruct [0, 7], .createCall 9 (some 1)], 3,
          [(2, .embedded 2),
            (1, .structV [.structV [.embedded 4], .embedded 7]),
            (0, .embedded 9)]⟩) := by
  constructor
  · intro f g fuel s fnId aid fcid cids hfn harg
    simp [createCall, hfn, harg, applyCall, embedValue_structV,
      embedElems_embedded, childCreate_okChild, addValue]
  · rfl

/-- Witness for C7 at the `CreateCallLazyStructMultiArg` inputs: function
embedded at child id 0, a lazy struct of the embedded elements 1 and 2; the
child receives `CreateStruct [1, 2]` (answered 3) and then one
`CreateCall 0 (some 3)` (answered 4). -/
theorem claim_C7_witness :
    createCall (okChild seqIds (fun _ _ => .array 0)) 10 2 (some 3)
        ⟨[.createValue (.computation .tensorflow), .createValue (.array 0),
            .createValue (.array 1)], 4,
          [(3, .structV [.embedded 1, .embedded 2]), (2, .embedded 0),
            (1, .embedded 2), (0, .embedded 1)]⟩ =
      .ok (4,
        ⟨[.createValue (.computation .tensorflow), .createValue (.array 0),
            .createValue (.array 1), .createStruct [1, 2], .createCall 0 (some 3)],
          5,
          [(4, .embedded 4), (3, .structV [.embedded 1, .embedded 2]),
            (2, .embedded 0), (1, .embedded 2), (0, .embedded 1)]⟩) :=
  claim_C7.1 seqIds (fun _ _ => .array 0) 8
    ⟨[.createValue (.computation .tensorflow), .createValue (.array 0),
        .createValue (.array 1)], 4,
      [(3, .structV [.embedded 1, .embedded 2]), (2, .embedded 0),
        (1, .embedded 2), (0, .embedded 1)]⟩
    2 3 0 [1, 2] rfl rfl

/-- C8: `CreateCall` with a local `Struct` value as the function fails with
`InvalidArgument`, the message stating that the received value type is
"STRUCTURE" and is not a function — both with no argument and with any
argument. -/
theorem claim_C8 :
    (∀ (c : Child) (fuel : Nat) (s : RState) (fnId : Nat)
        (elems : List ExecutorValue),
      lookupValue fnId s = some (.structV elems) →
      createCall c fuel fnId none s =
        .error ⟨.invalidArgument,
          "Received value type [STRUCTURE] which is not a function"⟩) ∧
    (∀ (c : Child) (fuel : Nat) (s : RState) (fnId aid : Nat)
        (elems : List ExecutorValue) (argV : ExecutorValue),
      lookupValue fnId s = some (.structV elems) →
      lookupValue aid s = some argV →
      createCall c fuel fnId (some aid) s =
        .error ⟨.invalidArgument,
          "Received value type [STRUCTURE] which is not a function"⟩) := by
  constructor
  · intro c fuel s fnId elems hfn
    simp [createCall, hfn, applyCall]
  · intro c fuel s fnId aid elems argV hfn harg
    simp [createCall, hfn, harg, applyCall]

/-- Witness for C8 at the `CreateCallFailsNonFunction` inputs: a lazy struct
of two embedded tensors at id 0, called with no argument. -/
theorem claim_C8_witness :
    createCall (okChild seqIds (fun _ _ => .array 0)) 10 0 none
        ⟨[.createValue (.array 1), .createValue (.array 2)], 1,
          [(0, .structV [.embedded 0, .embedded 0])]⟩ =
      .error ⟨.invalidArgument,
        "Received value type [STRUCTURE] which is not a function"⟩ :=
  claim_C8.1 (okChild seqIds (fun _ _ => .array 0)) 10
    ⟨[.createValue (.array 1), .createValue (.array 2)], 1,
      [(0, .structV [.embedded 0, .embedded 0])]⟩
    0 [.embedded 0, .embedded 0] rfl

/-- C9: child-executor errors are propagated verbatim — the error kind and
message returned by the child are returned unchanged to the caller, never
swallowed or re-wrapped — for child failures arising inside `CreateValue` of
a leaf, `CreateSelection` on an embedded value, `CreateCall` delegated to the
child, and `Materialize`. -/
theorem claim_C9 :
    (∀ (c : Child) (e : Err) (fuel : Nat) (pb : V0Value) (s : RState),
      IsLeaf pb →
      c.create s.trace (.createValue pb) = .error e →
      createValue c (fuel + 1) pb s = .error e) ∧
    (∀ (c : Child) (e : Err) (s : RState) (id cid idx : Nat),
      lookupValue id s = some (.embedded cid) →
      c.create s.trace (.createSelection cid idx) = .error e →
      createSelection c id idx s = .error e) ∧
    (∀ (c : Child) (e : Err) (fuel : Nat) (s : RState) (fnId fcid : Nat),
      lookupValue fnId s = some (.embedded fcid) →
      c.create s.trace (.createCall fcid none) = .error e →
      createCall c fuel fnId none s = .error e) ∧
    (∀ (c : Child) (e : Err) (fuel : Nat) (s : RState) (id cid : Nat),
      lookupValue id s = some (.embedded cid) →
      c.mater s.trace cid = .error e →
      materialize c (fuel + 1) id s = .error e) := by
  refine ⟨?_, ?_, ?_, ?_⟩
  · intro c e fuel pb s hleaf herr
    cases pb <;> simp [IsLeaf] at hleaf <;>
      simp [createValue, evalValue, childCreate, herr]
  · intro c e s id cid idx hid herr
    simp [createSelection, hid, applySelection, childCreate, herr]
  · intro c e fuel s fnId fcid hfn herr
    simp [createCall, hfn, applyCall, childCreate, herr]
  · intro c e fuel s id cid hid herr
    simp [materialize, hid, embedValue_embedded, herr]

/-- Witness for C9 at concrete inputs: a child that answers every create and
materialize request with `Internal "test"`, replaying
`CreateValueChildExecutorError` and
`EvaluateSelectionOfEmbeddStructChildExecutorFails`. -/
theorem claim_C9_witness :
    createValue ⟨fun _ _ => .error ⟨.internal, "test"⟩,
        fun _ _ => .error ⟨.internal, "test"⟩⟩ 10 (.array 1) initState =
      .error ⟨.internal, "test"⟩ ∧
    createSelection ⟨fun _ _ => .error ⟨.internal, "expected test failure"⟩,
        fun _ _ => .error ⟨.internal, "expected test failure"⟩⟩ 1 2
        ⟨[.createValue (.computation (.intrinsic "test_intrinsic")),
            .createCall 0 none], 2, [(1, .embedded 1), (0, .embedded 0)]⟩ =
      .error ⟨.internal, "expected test failure"⟩ ∧
    createCall ⟨fun _ _ => .error ⟨.internal, "test"⟩,
        fun _ _ => .error ⟨.internal, "test"⟩⟩ 10 0 none
        ⟨[], 1, [(0, .embedded 0)]⟩ =
      .error ⟨.internal, "test"⟩ ∧
    materialize ⟨fun _ _ => .error ⟨.internal, "child test error"⟩,
        fun _ _ => .error ⟨.internal, "child test error"⟩⟩ 10 0
        ⟨[], 1, [(0, .embedded 0)]⟩ =
      .error ⟨.internal, "child test error"⟩ := by
  refine ⟨?_, ?_, ?_, ?_⟩
  · exact claim_C9.1 ⟨fun _ _ => .error ⟨.internal, "test"⟩,
      fun _ _ => .error ⟨.internal, "test"⟩⟩ ⟨.internal, "test"⟩ 9 (.array 1)
      initState trivial rfl
  · exact claim_C9.2.1 ⟨fun _ _ => .error ⟨.internal, "expected test failure"⟩,
      fun _ _ => .error ⟨.internal, "expected test failure"⟩⟩
      ⟨.internal, "expected test failure"⟩
      ⟨[.createValue (.computation (.intrinsic "test_intrinsic")),
          .createCall 0 none], 2, [(1, .embedded 1), (0, .embedded 0)]⟩
      1 1 2 rfl rfl
  · exact claim_C9.2.2.1 ⟨fun _ _ => .error ⟨.internal, "test"⟩,
      fun _ _ => .error ⟨.internal, "test"⟩⟩ ⟨.internal, "test"⟩ 10
      ⟨[], 1, [(0, .embedded 0)]⟩ 0 0 rfl rfl
  · exact claim_C9.2.2.2 ⟨fun _ _ => .error ⟨.internal, "child test error"⟩,
      fun _ _ => .error ⟨.internal, "child test error"⟩⟩
      ⟨.internal, "child test error"⟩ 9 ⟨[], 1, [(0, .embedded 0)]⟩ 0 0 rfl rfl

/-- C10: a federated value — a federated collection of member values, of any
shape — is delegated whole to the child executor in exactly one child
`CreateValue` carrying the entire serialized value; the result is a single
internal `Embedded` value and the members are not decomposed into separate
child-side values or a local lazy `Struct`. -/
theorem claim_C10 (f : List ChildReq → ChildReq → Nat)
    (g : List ChildReq → Nat → V0Value) (fuel : Nat) (members : List V0Value)
    (s : RState) :
    createValue (okChild f g) (fuel + 1) (.federated members) s =
      .ok (s.nextId,
        ⟨s.trace ++ [.createValue (.federated members)], s.nextId + 1,
          (s.nextId, .embedded (f s.trace (.createValue (.federated members)))) ::
            s.table⟩) := by
  simp [createValue, evalValue, childCreate_okChild, addValue]

end RefResolve
